import Mathlib

/-!
Shallow embedding of the automation control core of the bonsai_assistant
repository (src/core/automation_controller.py, src/core/timing.py,
src/config/app_config.py, store interface from src/core/data_manager.py).

Times and moisture percentages are modelled as rationals; the event log,
watering log, pump command log and moisture store are newest-first lists.
External calls that can raise (pump, data manager, cooldown manager) are
driven by a `FailOracle` of booleans saying which call raises.
-/

namespace Bonsai

/-- `PlantState` enum from core/automation_controller.py. -/
inductive PlantState where
  | HEALTHY
  | NEEDS_WATER
  | RECENTLY_WATERED
  | SENSOR_ERROR
  | CRITICAL
deriving DecidableEq, Repr

/-- `WateringTrigger` enum from core/automation_controller.py. -/
inductive WateringTrigger where
  | MOISTURE_LOW
  | SCHEDULED
  | MANUAL
  | EMERGENCY
deriving DecidableEq, Repr

/-- `trigger.value.upper()` as used for the `event_type` field of a
logged watering event. -/
def WateringTrigger.upperValue : WateringTrigger → String
  | .MOISTURE_LOW => "MOISTURE_LOW"
  | .SCHEDULED => "SCHEDULED"
  | .MANUAL => "MANUAL"
  | .EMERGENCY => "EMERGENCY"

/-- A system event row as written by `DataManager.log_system_event`. -/
structure SysEvent where
  category : String
  severity : String
  time : ℚ
deriving DecidableEq, Repr

/-- A watering event row as written by `DataManager.log_watering_event`.
`lowNote` carries the consecutive-low-readings count from the notes string
of an automated watering (`none` for the manual path's fixed note). -/
structure WateringRecord where
  time : ℚ
  triggerMoisture : Option ℚ
  duration : ℚ
  eventType : String
  lowNote : Option ℕ
deriving DecidableEq, Repr

/-- Commands issued to the pump actuator. -/
inductive PumpCmd where
  | runTimed (duration : ℚ)
  | startPulsing (pulseOn pulseOff total : ℚ)
deriving DecidableEq, Repr

/-- Configuration fields consumed by the controller; defaults are the
dataclass defaults of config/app_config.py (cooldown 24h = 86400 s from
core/timing.py's default). -/
structure Config where
  moistureThreshold : ℚ := 30
  sensorWarningInterval : ℚ := 60
  initialRunDuration : ℚ := 1
  pulseOnTime : ℚ := 5/16
  pulseOffTime : ℚ := 5/16
  pulseDuration : ℚ := 15
  postWaterWait : ℚ := 30
  cooldownSec : ℚ := 86400
deriving DecidableEq, Repr

def defaultConfig : Config := {}

/-- Runtime state of `AutomationController` together with the cooldown
manager's timestamp and the rows persisted through `DataManager`. -/
structure EngineState where
  currentState : PlantState := .HEALTHY
  lastMoisture : Option ℚ := none
  lastSensorWarning : ℚ := 0
  automationActive : Bool := false
  adaptiveThreshold : ℚ
  consecutiveLow : ℕ := 0
  cooldownLast : ℚ := 0
  markCount : ℕ := 0
  moistureStore : List (ℚ × ℚ) := []
  wateringStore : List WateringRecord := []
  events : List SysEvent := []
  pumpLog : List PumpCmd := []
deriving DecidableEq, Repr

/-- `AutomationController.__init__`: the adaptive threshold is seeded
directly from `config.sensor.moisture_threshold` (no clamping), the
cooldown manager starts at `last_automated_watered_time = 0`. -/
def initState (cfg : Config) : EngineState :=
  { adaptiveThreshold := cfg.moistureThreshold }

/-- `DataManager.log_system_event` (rows kept newest first). -/
def logEvent (s : EngineState) (cat sev : String) (now : ℚ) : EngineState :=
  { s with events := ⟨cat, sev, now⟩ :: s.events }

/-- `WateringCooldownManager.can_water`: strict comparison against the
cooldown duration. -/
def canWater (cfg : Config) (s : EngineState) (now : ℚ) : Bool :=
  decide (cfg.cooldownSec < now - s.cooldownLast)

/-- `AutomationController._calculate_plant_state`: returns the new state
and the updated `consecutive_low_readings` counter. -/
def calcPlantState (moisture threshold : ℚ) (cw : Bool) (consecutive : ℕ) :
    PlantState × ℕ :=
  if moisture < threshold * (1/2) then (.CRITICAL, consecutive + 1)
  else if moisture < threshold then (.NEEDS_WATER, consecutive + 1)
  else if !cw then (.RECENTLY_WATERED, 0)
  else (.HEALTHY, 0)

/-- `AutomationController._execute_automation_logic`, decision part:
which watering (trigger, duration multiplier, emergency flag) is started
on this tick, `none` when no automated watering is triggered. -/
def decideWatering (automationActive : Bool) (state : PlantState)
    (cw : Bool) (consecutive : ℕ) : Option (WateringTrigger × ℚ × Bool) :=
  if automationActive then none
  else if state = .CRITICAL then
    if cw then some (.EMERGENCY, 3/2, true) else none
  else if state = .NEEDS_WATER then
    if cw ∧ 3 ≤ consecutive then some (.MOISTURE_LOW, 1, false) else none
  else none

/-- Floor of a rational, kept kernel-computable (`Int.ediv` on the
normalised numerator and denominator); equals `⌊x⌋`. -/
def ratFloor (x : ℚ) : ℤ := Int.ediv x.num x.den

/-- Round-half-to-even to an integer, the rounding Python's built-in
`round` uses. -/
def roundHalfEven (x : ℚ) : ℤ :=
  if x - ratFloor x < 1/2 then ratFloor x
  else if 1/2 < x - ratFloor x then ratFloor x + 1
  else if 2 ∣ ratFloor x then ratFloor x else ratFloor x + 1

/-- Python `round(x, 1)`: round to one decimal place. -/
def round1 (x : ℚ) : ℚ := (roundHalfEven (x * 10) : ℚ) / 10

/-- The `min([...] + [float(inf)])` over distances to watering times in
`_update_adaptive_threshold`; `none` plays the role of the infinite
sentinel reached when there are no watering times. -/
def timeSinceWatering (t : ℚ) : List ℚ → Option ℚ
  | [] => none
  | w :: ws =>
    match timeSinceWatering t ws with
    | none => some |t - w|
    | some m => some (min |t - w| m)

/-- The stability test of `_update_adaptive_threshold`:
`time_since_watering > 4 * 3600`. -/
def isStableReading (t : ℚ) (ws : List ℚ) : Bool :=
  match timeSinceWatering t ws with
  | none => true
  | some d => decide (4 * 3600 < d)

/-- `stable_readings`: moisture values of history rows (timestamp,
moisture) passing the stability test. -/
def stableReadings (history : List (ℚ × ℚ)) (ws : List ℚ) : List ℚ :=
  (history.filter (fun r => isStableReading r.1 ws)).map (fun r => r.2)

/-- `avg_stable = sum(stable_readings) / len(stable_readings)`. -/
def avgOf (l : List ℚ) : ℚ := l.sum / (l.length : ℚ)

/-- `new_threshold = max(15, min(50, avg_stable * 0.9))`. -/
def codeCandidate (history : List (ℚ × ℚ)) (ws : List ℚ) : ℚ :=
  max 15 (min 50 (avgOf (stableReadings history ws) * (9/10)))

/-- `AutomationController._update_adaptive_threshold`, computational
core over the store query results: given the moisture rows of the last
24 hours, watering timestamps of the last 7 days and the current
threshold, returns the new threshold and whether it was updated (an
update logs a THRESHOLD_UPDATE event). -/
def recomputeThreshold (history : List (ℚ × ℚ)) (ws : List ℚ)
    (current : ℚ) : ℚ × Bool :=
  if history.length < 10 then (current, false)
  else if 5 ≤ (stableReadings history ws).length then
    if 2 < |codeCandidate history ws - current| then
      (round1 (codeCandidate history ws), true)
    else (current, false)
  else (current, false)

/-- Modelled from the spec's words in C6, for comparison with the code's
`stableReadings`: a reading is stable when more than 4 hours separate it
from every watering event (all readings stable when no watering event
exists). -/
def specStableReadings (history : List (ℚ × ℚ)) (ws : List ℚ) : List ℚ :=
  (history.filter
    (fun r => ws.all (fun w => decide (4 * 3600 < |r.1 - w|)))).map
    (fun r => r.2)

/-- Modelled from the spec's words in C6, for comparison with the code's
`codeCandidate`: `clamp(mean(stable readings) * 0.9, 15, 50)`. -/
def specCandidate (history : List (ℚ × ℚ)) (ws : List ℚ) : ℚ :=
  max 15 (min 50
    ((specStableReadings history ws).sum /
      ((specStableReadings history ws).length : ℚ) * (9/10)))

/-- `DataManager.get_moisture_history(hours)`: rows with
`timestamp >= now - hours`, newest first (the store list is kept newest
first and filtering preserves order). -/
def getMoistureHistory (s : EngineState) (now hours : ℚ) : List (ℚ × ℚ) :=
  s.moistureStore.filter (fun r => decide (now - hours * 3600 ≤ r.1))

/-- `DataManager.get_watering_history(days)`: rows with
`timestamp >= now - days`, newest first. -/
def getWateringHistory (s : EngineState) (now days : ℚ) : List WateringRecord :=
  s.wateringStore.filter (fun e => decide (now - days * 86400 ≤ e.time))

/-- The recompute of `_update_adaptive_threshold` on the results of the
state's store queries. -/
def recomputeOn (s : EngineState) (now : ℚ) : ℚ × Bool :=
  recomputeThreshold (getMoistureHistory s now 24)
    ((getWateringHistory s now 7).map (fun e => e.time)) s.adaptiveThreshold

/-- `AutomationController._update_adaptive_threshold` acting on the
engine state: queries the store, recomputes, and logs a
THRESHOLD_UPDATE SystemEvent when the threshold changed. -/
def updateAdaptiveThresholdS (s : EngineState) (now : ℚ) : EngineState :=
  if (recomputeOn s now).2 then
    logEvent { s with adaptiveThreshold := (recomputeOn s now).1 }
      "THRESHOLD_UPDATE" "INFO" now
  else { s with adaptiveThreshold := (recomputeOn s now).1 }

/-- Ten moisture rows whose stable mean is 3201/90, so that the
candidate threshold is exactly 32.01. -/
def cexHistory : List (ℚ × ℚ) := (List.range 10).map (fun i => ((i : ℚ), 3201/90))

/-- Number of logged system events of a category. -/
def countCat (evts : List SysEvent) (cat : String) : ℕ :=
  (evts.filter (fun e => e.category = cat)).length

/-- Which external calls of the watering sequence raise an exception on
this run (pump commands, data-manager logging, cooldown mark). -/
structure FailOracle where
  failLogStart : Bool := false
  failRunTimed : Bool := false
  failStartPulsing : Bool := false
  failLogWateringEvent : Bool := false
  failMark : Bool := false
  failLogComplete : Bool := false
deriving DecidableEq, Repr

/-- The run on which no external call raises. -/
def noFail : FailOracle := {}

/-- Whether any step of the watering sequence raises. -/
def FailOracle.anyFail (o : FailOracle) : Bool :=
  o.failLogStart || o.failRunTimed || o.failStartPulsing ||
    o.failLogWateringEvent || o.failMark || o.failLogComplete

/-- One fallible call: either raises (carrying the state reached so far)
or applies its effect. -/
def step (flag : Bool) (f : EngineState → EngineState) (s : EngineState) :
    Except EngineState EngineState :=
  if flag then .error s else .ok (f s)

/-- The `try` body of `AutomationController._execute_watering`: set
`automation_active`, log WATERING_START, run the pump for
`initial_run_duration * multiplier`, pulse for
`pulse_duration * multiplier`, log the watering event (with the
consecutive-low-readings note), mark the cooldown, log
WATERING_COMPLETE. The sleeps have no state effect. -/
def execWateringTry (cfg : Config) (s0 : EngineState) (trig : WateringTrigger)
    (mult now : ℚ) (o : FailOracle) : Except EngineState EngineState :=
  (step o.failLogStart
      (fun s => logEvent s "WATERING_START" "INFO" now)
      { s0 with automationActive := true }).bind fun s =>
  (step o.failRunTimed
      (fun s => { s with
        pumpLog := PumpCmd.runTimed (cfg.initialRunDuration * mult) :: s.pumpLog }) s).bind fun s =>
  (step o.failStartPulsing
      (fun s => { s with
        pumpLog := PumpCmd.startPulsing cfg.pulseOnTime cfg.pulseOffTime
          (cfg.pulseDuration * mult) :: s.pumpLog }) s).bind fun s =>
  (step o.failLogWateringEvent
      (fun s => { s with
        wateringStore := ⟨now, s.lastMoisture,
          cfg.initialRunDuration * mult + cfg.pulseDuration * mult,
          trig.upperValue, some s.consecutiveLow⟩ :: s.wateringStore }) s).bind fun s =>
  (step o.failMark
      (fun s => { s with cooldownLast := now, markCount := s.markCount + 1 }) s).bind fun s =>
  step o.failLogComplete (fun s => logEvent s "WATERING_COMPLETE" "INFO" now) s

/-- `AutomationController._execute_watering`: the re-entrancy guard
(return if active and not an emergency), the `try` body, the `except`
clause logging WATERING_ERROR without re-raising (hence the total return
type), and the `finally` clause resetting `automation_active` and
`consecutive_low_readings`. -/
def execWatering (cfg : Config) (s : EngineState) (trig : WateringTrigger)
    (mult : ℚ) (emergency : Bool) (now : ℚ) (o : FailOracle) : EngineState :=
  if s.automationActive && !emergency then s
  else
    match execWateringTry cfg s trig mult now o with
    | .ok s1 => { s1 with automationActive := false, consecutiveLow := 0 }
    | .error s1 =>
        { logEvent s1 "WATERING_ERROR" "ERROR" now with
            automationActive := false, consecutiveLow := 0 }

/-- `AutomationController.manual_water`: Python's `if not duration:`
treats `None` and `0.0` alike; the pump is driven (pulsing or timed)
with no check of `automation_active`, a MANUAL watering event is logged,
and exceptions are caught as MANUAL_WATER_ERROR. It never calls
`mark_watered`. -/
def manualWater (cfg : Config) (s : EngineState) (duration : Option ℚ)
    (pulse : Bool) (failPump failLog : Bool) (now : ℚ) : EngineState :=
  let d := match duration with
    | none => cfg.initialRunDuration
    | some d0 => if d0 = 0 then cfg.initialRunDuration else d0
  match
    (step failPump (fun s =>
      if pulse then
        { s with pumpLog :=
            PumpCmd.startPulsing cfg.pulseOnTime cfg.pulseOffTime d :: s.pumpLog }
      else { s with pumpLog := PumpCmd.runTimed d :: s.pumpLog }) s).bind fun s1 =>
    step failLog (fun s2 =>
      { s2 with wateringStore :=
          ⟨now, s2.lastMoisture, d, "MANUAL", none⟩ :: s2.wateringStore }) s1
  with
  | .ok s1 => s1
  | .error s1 => logEvent s1 "MANUAL_WATER_ERROR" "ERROR" now

/-- `_notify_state_change` guarded by the `new_state != current_state`
check (used both in `_check_and_update_state` and, with
`SENSOR_ERROR`, in `_handle_sensor_error`): log a STATE_CHANGE
SystemEvent and store the new state. -/
def stateChangeStep (s : EngineState) (newState : PlantState) (now : ℚ) :
    EngineState :=
  if newState ≠ s.currentState then
    { logEvent s "STATE_CHANGE" "INFO" now with currentState := newState }
  else s

/-- The rate-limited warning of `_handle_sensor_error`: log a
SENSOR_WARNING and remember its time when at least
`sensor_warning_interval` seconds passed since the last one. -/
def sensorWarnStep (cfg : Config) (s : EngineState) (now : ℚ) : EngineState :=
  if cfg.sensorWarningInterval ≤ now - s.lastSensorWarning then
    { logEvent s "SENSOR_WARNING" "WARNING" now with lastSensorWarning := now }
  else s

/-- `AutomationController._handle_sensor_error`. -/
def handleSensorError (cfg : Config) (s : EngineState) (now : ℚ) : EngineState :=
  stateChangeStep (sensorWarnStep cfg s now) PlantState.SENSOR_ERROR now

/-- The classification part of `_check_and_update_state` on a present
reading: run `_calculate_plant_state` against the current adaptive
threshold and cooldown, store the updated counter, and fire the
state-change notification when the state changed. -/
def classifyStep (cfg : Config) (s : EngineState) (now m : ℚ) : EngineState :=
  stateChangeStep
    { s with consecutiveLow :=
        (calcPlantState m s.adaptiveThreshold (canWater cfg s now) s.consecutiveLow).2 }
    (calcPlantState m s.adaptiveThreshold (canWater cfg s now) s.consecutiveLow).1
    now

/-- `AutomationController._check_and_update_state`: on an absent reading
run the sensor-error path and return; otherwise store the reading,
update the adaptive threshold, then classify. -/
def checkAndUpdateState (cfg : Config) (s : EngineState) (now : ℚ)
    (reading : Option ℚ) : EngineState :=
  match reading with
  | none => handleSensorError cfg s now
  | some m =>
      classifyStep cfg
        (updateAdaptiveThresholdS { s with lastMoisture := some m } now) now m

/-- `AutomationController._execute_automation_logic`: decide, then run
the watering sequence when a trigger fired. -/
def executeAutomationLogic (cfg : Config) (s : EngineState) (now : ℚ)
    (o : FailOracle) : EngineState :=
  match decideWatering s.automationActive s.currentState (canWater cfg s now)
      s.consecutiveLow with
  | none => s
  | some (trig, mult, emg) => execWatering cfg s trig mult emg now o

/-- The end-of-iteration persistence of `_automation_loop`: log
`last_moisture_reading` to the store whenever it is not None. -/
def persistMoisture (s : EngineState) (now : ℚ) : EngineState :=
  match s.lastMoisture with
  | some v => { s with moistureStore := (now, v) :: s.moistureStore }
  | none => s

/-- One iteration of `_automation_loop` (the watering schedule is empty,
so `_check_scheduled_watering` is a no-op). -/
def tick (cfg : Config) (s : EngineState) (now : ℚ) (reading : Option ℚ)
    (o : FailOracle) : EngineState :=
  persistMoisture
    (executeAutomationLogic cfg (checkAndUpdateState cfg s now reading) now o)
    now

/-- A run of the loop over given (time, reading) ticks, none of whose
external calls raise. -/
def runTicks (cfg : Config) (s : EngineState) (ticks : List (ℚ × Option ℚ)) :
    EngineState :=
  ticks.foldl (fun s1 p => tick cfg s1 p.1 p.2 noFail) s

/-- A run of consecutive sensor-failure ticks. -/
def runAbsent (cfg : Config) (s : EngineState) (ts : List ℚ) : EngineState :=
  ts.foldl (fun s1 t => tick cfg s1 t none noFail) s

/-- Times of the logged SENSOR_WARNING events, newest first. -/
def warnTimes (s : EngineState) : List ℚ :=
  (s.events.filter (fun e => e.category = "SENSOR_WARNING")).map (fun e => e.time)

/-- Consecutive SENSOR_WARNING events are at least
`sensor_warning_interval` apart. -/
def warnSep (cfg : Config) (s : EngineState) : Prop :=
  List.Chain' (fun a b => cfg.sensorWarningInterval ≤ a - b) (warnTimes s)

/-- `last_sensor_warning` is the time of the newest logged
SENSOR_WARNING (or no warning was logged yet). -/
def SensorInv (s : EngineState) : Prop :=
  warnTimes s = [] ∨ (warnTimes s).head? = some s.lastSensorWarning

/-- A continuous 70-second sensor absence, polled every second
(71 ticks), starting at t = 1000. -/
def absentSeconds : List ℚ :=
  (List.range 71).map (fun (i : ℕ) => (1000 : ℚ) + (i : ℚ))

/-- The idle stretch of the absence run between the two warnings
(t = 1001 .. 1059). -/
def idleA : List ℚ := (List.range 59).map (fun (i : ℕ) => (1001 : ℚ) + (i : ℚ))

/-- The idle stretch of the absence run after the second warning
(t = 1061 .. 1070). -/
def idleB : List ℚ := (List.range 10).map (fun (i : ℕ) => (1061 : ℚ) + (i : ℚ))

/-- The engine state after the first absent tick at t = 1000: state
forced to SensorError (STATE_CHANGE logged) and one SENSOR_WARNING. -/
def c8state1 : EngineState :=
  ⟨.SENSOR_ERROR, none, 1000, false, 30, 0, 0, 0, [], [],
    [⟨"STATE_CHANGE", "INFO", 1000⟩, ⟨"SENSOR_WARNING", "WARNING", 1000⟩], []⟩

/-- The engine state after the absent tick at t = 1060: a second
SENSOR_WARNING, 60 seconds after the first. -/
def c8state2 : EngineState :=
  ⟨.SENSOR_ERROR, none, 1060, false, 30, 0, 0, 0, [], [],
    [⟨"SENSOR_WARNING", "WARNING", 1060⟩, ⟨"STATE_CHANGE", "INFO", 1000⟩,
      ⟨"SENSOR_WARNING", "WARNING", 1000⟩], []⟩

/-- The default configuration with a 10-minute cooldown, so that at
t = 1000 the cooldown (never watered) is expired; every other parameter
keeps its default (threshold 30, multiplier and pump timings). -/
def cexConfig : Config := { defaultConfig with cooldownSec := 600 }

/-- One tick at moisture 10 with threshold 30 and expired cooldown. -/
def oneLowTick : List (ℚ × Option ℚ) := [(1000, some 10)]

/-- Three consecutive ticks at moisture 10. -/
def threeLowTicks : List (ℚ × Option ℚ) :=
  [(1000, some 10), (1001, some 10), (1002, some 10)]

end Bonsai

namespace Bonsai

/-- C1: for a tick on which `automation_active` is false, the decision of
`_execute_automation_logic` is: Critical with `can_water()` triggers an
EMERGENCY watering with duration multiplier 1.5; NeedsWater with
`can_water()` and `consecutive_low_readings >= 3` triggers a MOISTURE_LOW
watering at multiplier 1.0; in every other case nothing is triggered, and
a MOISTURE_LOW watering never fires with fewer than 3 consecutive low
readings. -/
theorem c1_automated_decision (state : PlantState) (cw : Bool) (c : ℕ) :
    (state = .CRITICAL → cw = true →
      decideWatering false state cw c = some (.EMERGENCY, 3/2, true))
    ∧ (state = .NEEDS_WATER → cw = true → 3 ≤ c →
      decideWatering false state cw c = some (.MOISTURE_LOW, 1, false))
    ∧ (¬(state = .CRITICAL ∧ cw = true) →
       ¬(state = .NEEDS_WATER ∧ cw = true ∧ 3 ≤ c) →
      decideWatering false state cw c = none)
    ∧ (∀ mult emg, c < 3 →
      decideWatering false state cw c ≠ some (.MOISTURE_LOW, mult, emg)) := by
  refine ⟨?_, ?_, ?_, ?_⟩
  · rintro rfl rfl; rfl
  · rintro rfl rfl h3
    simp [decideWatering, h3]
  · intro h1 h2
    cases state <;> cases cw <;> simp_all [decideWatering]
  · intro mult emg hc
    cases state <;> cases cw <;> simp_all [decideWatering]

/-- Witness for C1 at a concrete input: Critical, cooldown expired. -/
theorem c1_automated_decision_instance :
    decideWatering false .CRITICAL true 0 = some (.EMERGENCY, 3/2, true) :=
  (c1_automated_decision .CRITICAL true 0).1 rfl rfl

/-- C3: `_calculate_plant_state` with a present reading is the pure
function: moisture below half the threshold gives Critical with the
counter incremented; between half threshold and threshold gives
NeedsWater with the counter incremented; at or above threshold gives
RecentlyWatered (counter 0) when `can_water()` is false and Healthy
(counter 0) when it is true. The threshold is taken nonnegative, as the
spec's data model keeps `adaptive_threshold` within [15, 50]. -/
theorem c3_plant_state_classification (m t : ℚ) (cw : Bool) (c : ℕ)
    (ht : 0 ≤ t) :
    (m < t * (1/2) → calcPlantState m t cw c = (.CRITICAL, c + 1))
    ∧ (t * (1/2) ≤ m → m < t → calcPlantState m t cw c = (.NEEDS_WATER, c + 1))
    ∧ (t ≤ m → cw = false → calcPlantState m t cw c = (.RECENTLY_WATERED, 0))
    ∧ (t ≤ m → cw = true → calcPlantState m t cw c = (.HEALTHY, 0)) := by
  refine ⟨?_, ?_, ?_, ?_⟩
  · intro h
    unfold calcPlantState
    rw [if_pos h]
  · intro h1 h2
    unfold calcPlantState
    rw [if_neg (by push_neg; linarith), if_pos h2]
  · rintro h rfl
    unfold calcPlantState
    rw [if_neg (by push_neg; linarith), if_neg (by push_neg; linarith)]
    simp
  · rintro h rfl
    unfold calcPlantState
    rw [if_neg (by push_neg; linarith), if_neg (by push_neg; linarith)]
    simp

/-- Witness for C3 at a concrete input: moisture 10, threshold 30. -/
theorem c3_plant_state_classification_instance :
    calcPlantState 10 30 true 0 = (.CRITICAL, 1) :=
  (c3_plant_state_classification 10 30 true 0 (by norm_num)).1 (by norm_num)

theorem ratFloor_eq_floor (x : ℚ) : ratFloor x = ⌊x⌋ := by
  rw [Rat.floor_def]; rfl

theorem roundHalfEven_sub_abs_le (x : ℚ) :
    |((roundHalfEven x : ℤ) : ℚ) - x| ≤ 1/2 := by
  have hle := Int.floor_le x
  have hlt := Int.lt_floor_add_one x
  unfold roundHalfEven
  simp only [ratFloor_eq_floor]
  split_ifs with h1 h2 h3 <;>
    (rw [abs_le]; constructor <;> push_cast at * <;> linarith)

theorem round1_sub_abs_le (y : ℚ) : |round1 y - y| ≤ 1/20 := by
  have h := roundHalfEven_sub_abs_le (y * 10)
  have he : round1 y - y = (((roundHalfEven (y * 10) : ℤ) : ℚ) - y * 10) / 10 := by
    unfold round1; ring
  rw [he, abs_div]
  rw [abs_of_nonneg (by norm_num : (0:ℚ) ≤ 10)]
  linarith

theorem round1_bounds (y : ℚ) (h15 : 15 ≤ y) (h50 : y ≤ 50) :
    15 ≤ round1 y ∧ round1 y ≤ 50 := by
  have h := roundHalfEven_sub_abs_le (y * 10)
  rw [abs_le] at h
  have hlo : (149 : ℤ) < roundHalfEven (y * 10) := by
    exact_mod_cast (by push_cast; linarith :
      ((149 : ℤ) : ℚ) < ((roundHalfEven (y * 10) : ℤ) : ℚ))
  have hhi : roundHalfEven (y * 10) < (501 : ℤ) := by
    exact_mod_cast (by push_cast; linarith :
      ((roundHalfEven (y * 10) : ℤ) : ℚ) < ((501 : ℤ) : ℚ))
  have hlo2 : ((150 : ℤ) : ℚ) ≤ ((roundHalfEven (y * 10) : ℤ) : ℚ) :=
    Int.cast_le.mpr (by omega)
  have hhi2 : ((roundHalfEven (y * 10) : ℤ) : ℚ) ≤ ((500 : ℤ) : ℚ) :=
    Int.cast_le.mpr (by omega)
  unfold round1
  push_cast at hlo2 hhi2
  constructor <;> linarith

theorem timeSinceWatering_eq_none (t : ℚ) (ws : List ℚ) :
    timeSinceWatering t ws = none ↔ ws = [] := by
  cases ws with
  | nil => simp [timeSinceWatering]
  | cons w rest =>
    simp only [timeSinceWatering]
    cases timeSinceWatering t rest <;> simp

theorem isStableReading_eq_all (t : ℚ) (ws : List ℚ) :
    isStableReading t ws = ws.all (fun w => decide (4 * 3600 < |t - w|)) := by
  induction ws with
  | nil => rfl
  | cons w rest ih =>
    rw [List.all_cons]
    unfold isStableReading
    simp only [timeSinceWatering]
    cases hrest : timeSinceWatering t rest with
    | none =>
      have hnil : rest = [] := (timeSinceWatering_eq_none t rest).mp hrest
      subst hnil
      simp
    | some m =>
      have hr : rest.all (fun w => decide (4 * 3600 < |t - w|))
          = decide (4 * 3600 < m) := by
        rw [← ih]; unfold isStableReading; rw [hrest]
      rw [hr]
      by_cases h1 : 4 * 3600 < |t - w| <;> by_cases h2 : (4 * 3600 : ℚ) < m <;>
        simp [lt_min_iff, lt_inf_iff, h1, h2]

theorem stableReadings_eq_spec (history : List (ℚ × ℚ)) (ws : List ℚ) :
    stableReadings history ws = specStableReadings history ws := by
  unfold stableReadings specStableReadings
  simp only [isStableReading_eq_all]

theorem codeCandidate_eq_spec (history : List (ℚ × ℚ)) (ws : List ℚ) :
    codeCandidate history ws = specCandidate history ws := by
  unfold codeCandidate specCandidate avgOf
  rw [stableReadings_eq_spec]

/-- C6: the adaptive recompute leaves the threshold unchanged unless
there are at least 10 readings in the 24-hour history and at least 5
stable readings — stable meaning more than 4 hours from every watering
event of the last 7 days, all readings stable when there is none; when
both hold the candidate is `clamp(mean(stable) * 0.9, 15, 50)`, applied
rounded to 1 decimal exactly when it differs from the current threshold
by more than 2, and a THRESHOLD_UPDATE SystemEvent is logged exactly on
update. -/
theorem c6_adaptive_recompute :
    (∀ (history : List (ℚ × ℚ)) (ws : List ℚ) (cur : ℚ),
      (¬(10 ≤ history.length ∧ 5 ≤ (specStableReadings history ws).length) →
        recomputeThreshold history ws cur = (cur, false))
      ∧ (10 ≤ history.length → 5 ≤ (specStableReadings history ws).length →
          (2 < |specCandidate history ws - cur| →
            recomputeThreshold history ws cur =
              (round1 (specCandidate history ws), true))
          ∧ (|specCandidate history ws - cur| ≤ 2 →
            recomputeThreshold history ws cur = (cur, false))))
    ∧ (∀ (s : EngineState) (now : ℚ),
        (updateAdaptiveThresholdS s now).adaptiveThreshold = (recomputeOn s now).1
        ∧ (updateAdaptiveThresholdS s now).events =
            (if (recomputeOn s now).2 = true
             then SysEvent.mk "THRESHOLD_UPDATE" "INFO" now :: s.events
             else s.events)) := by
  constructor
  · intro history ws cur
    have hs := stableReadings_eq_spec history ws
    have hc := codeCandidate_eq_spec history ws
    constructor
    · intro hno
      unfold recomputeThreshold
      rw [hs, hc]
      by_cases h1 : history.length < 10
      · rw [if_pos h1]
      · rw [if_neg h1]
        by_cases h2 : 5 ≤ (specStableReadings history ws).length
        · exact absurd ⟨by omega, h2⟩ hno
        · rw [if_neg h2]
    · intro hl h5
      constructor
      · intro hcand
        unfold recomputeThreshold
        rw [hs, hc]
        rw [if_neg (by omega), if_pos h5, if_pos hcand]
      · intro hcand
        unfold recomputeThreshold
        rw [hs, hc]
        rw [if_neg (by omega), if_pos h5, if_neg (by linarith)]
  · intro s now
    unfold updateAdaptiveThresholdS logEvent
    split_ifs with h <;> simp [h]

/-- Witness for C6 at a concrete input: an empty history keeps the
threshold and logs nothing. -/
theorem c6_adaptive_recompute_instance :
    recomputeThreshold [] [] 30 = (30, false) :=
  (c6_adaptive_recompute.1 [] [] 30).1 (by simp)

/-- Counterexample for C5: at construction the threshold equals the raw
configuration seed, so seed 100 puts it outside [15, 50]; and a single
recompute from threshold 30 with stable mean 3201/90 applies candidate
32.01 rounded to 32, an actual change of exactly 2, not strictly more
than the 2-point hysteresis margin. -/
theorem c5_threshold_cex :
    (initState { defaultConfig with moistureThreshold := 100 }).adaptiveThreshold = 100
    ∧ ¬((initState { defaultConfig with moistureThreshold := 100 }).adaptiveThreshold ≤ 50)
    ∧ (recomputeThreshold cexHistory [] 30).1 = 32
    ∧ (recomputeThreshold cexHistory [] 30).1 ≠ 30
    ∧ ¬(2 < |(recomputeThreshold cexHistory [] 30).1 - 30|) := by
  with_unfolding_all decide

/-- C5 amended: at construction the adaptive threshold equals the
configuration seed (so it lies in [15, 50] exactly when the seed does);
a recompute from a threshold in [15, 50] stays in [15, 50]; and a single
recompute either leaves the threshold unchanged or moves it by more than
39/20 (the pre-rounding candidate differs by strictly more than 2, and
rounding to one decimal moves it by at most 1/20). -/
theorem c5_threshold_amended (cfg : Config) (history : List (ℚ × ℚ))
    (ws : List ℚ) (cur : ℚ) :
    (initState cfg).adaptiveThreshold = cfg.moistureThreshold
    ∧ (15 ≤ cur → cur ≤ 50 →
        15 ≤ (recomputeThreshold history ws cur).1
        ∧ (recomputeThreshold history ws cur).1 ≤ 50)
    ∧ ((recomputeThreshold history ws cur).1 = cur
        ∨ 39/20 < |(recomputeThreshold history ws cur).1 - cur|) := by
  have hcand15 : 15 ≤ codeCandidate history ws := le_max_left _ _
  have hcand50 : codeCandidate history ws ≤ 50 :=
    max_le (by norm_num) (min_le_left _ _)
  have hb := round1_bounds (codeCandidate history ws) hcand15 hcand50
  refine ⟨rfl, ?_, ?_⟩
  · intro hc15 hc50
    unfold recomputeThreshold
    by_cases h1 : history.length < 10
    · rw [if_pos h1]; exact ⟨hc15, hc50⟩
    · rw [if_neg h1]
      by_cases h2 : 5 ≤ (stableReadings history ws).length
      · rw [if_pos h2]
        by_cases h3 : 2 < |codeCandidate history ws - cur|
        · rw [if_pos h3]; exact hb
        · rw [if_neg h3]; exact ⟨hc15, hc50⟩
      · rw [if_neg h2]; exact ⟨hc15, hc50⟩
  · unfold recomputeThreshold
    by_cases h1 : history.length < 10
    · rw [if_pos h1]; exact Or.inl rfl
    · rw [if_neg h1]
      by_cases h2 : 5 ≤ (stableReadings history ws).length
      · rw [if_pos h2]
        by_cases h3 : 2 < |codeCandidate history ws - cur|
        · rw [if_pos h3]
          refine Or.inr ?_
          show 39/20 < |round1 (codeCandidate history ws) - cur|
          have habs := round1_sub_abs_le (codeCandidate history ws)
          have htri := abs_sub_le (codeCandidate history ws)
            (round1 (codeCandidate history ws)) cur
          rw [abs_sub_comm (codeCandidate history ws)
            (round1 (codeCandidate history ws))] at htri
          linarith
        · rw [if_neg h3]; exact Or.inl rfl
      · rw [if_neg h2]; exact Or.inl rfl

/-- Witness for C5 amended at a concrete input. -/
theorem c5_threshold_amended_instance :
    15 ≤ (recomputeThreshold [] [] 30).1 ∧ (recomputeThreshold [] [] 30).1 ≤ 50 :=
  (c5_threshold_amended defaultConfig [] [] 30).2.1 (by norm_num) (by norm_num)

/-- C4: whenever the watering sequence actually runs (the re-entrancy
guard does not return early), then however the fail oracle makes its
internal steps raise, the exception is caught — `execWatering` returns a
plain state, mirroring the catch-all `except` — a WATERING_ERROR
SystemEvent is logged exactly when some step raised, and the `finally`
step always resets `automation_active` to false and
`consecutive_low_readings` to 0. -/
theorem c4_watering_error_cleanup (cfg : Config) (s : EngineState)
    (trig : WateringTrigger) (mult now : ℚ) (emg : Bool) (o : FailOracle)
    (h : ¬(s.automationActive = true ∧ emg = false)) :
    (execWatering cfg s trig mult emg now o).automationActive = false
    ∧ (execWatering cfg s trig mult emg now o).consecutiveLow = 0
    ∧ (o.anyFail = true →
        countCat (execWatering cfg s trig mult emg now o).events "WATERING_ERROR"
          = countCat s.events "WATERING_ERROR" + 1)
    ∧ (o.anyFail = false →
        countCat (execWatering cfg s trig mult emg now o).events "WATERING_ERROR"
          = countCat s.events "WATERING_ERROR") := by
  have hg : (s.automationActive && !emg) = false := by
    cases ha : s.automationActive <;> cases he : emg <;> simp_all
  obtain ⟨f1, f2, f3, f4, f5, f6⟩ := o
  cases f1 <;> cases f2 <;> cases f3 <;> cases f4 <;> cases f5 <;> cases f6 <;>
    simp [execWatering, hg, execWateringTry, step, Except.bind, logEvent,
      countCat, FailOracle.anyFail]

/-- Witness for C4 at a concrete input: a fresh state, a failing pump
run. -/
theorem c4_watering_error_cleanup_instance :
    (execWatering defaultConfig (initState defaultConfig) .EMERGENCY (3/2)
      true 1000 { noFail with failRunTimed := true }).automationActive = false :=
  (c4_watering_error_cleanup defaultConfig (initState defaultConfig) .EMERGENCY
    (3/2) 1000 true { noFail with failRunTimed := true } (by simp [initState])).1

/-- Counterexample for C7: a manual watering cycle that completes
normally logs its MANUAL WateringEvent, yet `mark_watered` is never
invoked — the mark count stays 0 instead of becoming exactly 1. -/
theorem c7_mark_watered_cex :
    (manualWater defaultConfig (initState defaultConfig) none true false false
      1000).wateringStore = [⟨1000, none, 1, "MANUAL", none⟩]
    ∧ (manualWater defaultConfig (initState defaultConfig) none true false false
        1000).markCount = 0 := by
  set_option maxRecDepth 10000 in with_unfolding_all decide

/-- C7 amended: in the automated watering sequence, `mark_watered` is
invoked exactly once per completed cycle, and only after both pump
commands were issued; a failure at or before the pump or
watering-event-logging steps leaves the cooldown untouched; never more
than one mark per cycle; and the manual watering entry point never
invokes `mark_watered` at all. -/
theorem c7_mark_watered_amended :
    (∀ (cfg : Config) (s : EngineState) (trig : WateringTrigger)
        (mult now : ℚ) (emg : Bool) (o : FailOracle),
      ¬(s.automationActive = true ∧ emg = false) →
      (o.anyFail = false →
          (execWatering cfg s trig mult emg now o).markCount = s.markCount + 1
          ∧ (execWatering cfg s trig mult emg now o).cooldownLast = now
          ∧ (execWatering cfg s trig mult emg now o).pumpLog =
              PumpCmd.startPulsing cfg.pulseOnTime cfg.pulseOffTime
                  (cfg.pulseDuration * mult)
                :: PumpCmd.runTimed (cfg.initialRunDuration * mult) :: s.pumpLog)
      ∧ ((o.failLogStart || o.failRunTimed || o.failStartPulsing
            || o.failLogWateringEvent) = true →
          (execWatering cfg s trig mult emg now o).markCount = s.markCount
          ∧ (execWatering cfg s trig mult emg now o).cooldownLast = s.cooldownLast)
      ∧ (execWatering cfg s trig mult emg now o).markCount ≤ s.markCount + 1)
    ∧ (∀ (cfg : Config) (s : EngineState) (d : Option ℚ) (p fp fl : Bool)
        (now : ℚ), (manualWater cfg s d p fp fl now).markCount = s.markCount) := by
  constructor
  · intro cfg s trig mult now emg o h
    have hg : (s.automationActive && !emg) = false := by
      cases ha : s.automationActive <;> cases he : emg <;> simp_all
    obtain ⟨f1, f2, f3, f4, f5, f6⟩ := o
    cases f1 <;> cases f2 <;> cases f3 <;> cases f4 <;> cases f5 <;> cases f6 <;>
      simp [execWatering, hg, execWateringTry, step, Except.bind, logEvent,
        FailOracle.anyFail]
  · intro cfg s d p fp fl now
    cases d <;> cases p <;> cases fp <;> cases fl <;>
      simp [manualWater, step, Except.bind, logEvent]

/-- Witness for C7 amended at a concrete input: a completed emergency
cycle marks the cooldown exactly once. -/
theorem c7_mark_watered_amended_instance :
    (execWatering defaultConfig (initState defaultConfig) .EMERGENCY (3/2)
      true 1000 noFail).markCount = (initState defaultConfig).markCount + 1 :=
  ((c7_mark_watered_amended.1 defaultConfig (initState defaultConfig) .EMERGENCY
    (3/2) 1000 true noFail (by simp [initState])).1 rfl).1

/-- C2, evaluation at the failing input: with an automated actuation in
flight (`automation_active = true`), the automated decision step is a
no-op and a non-emergency entry into the watering sequence returns
without driving the pump, but `manual_water` checks nothing: it drives
the pump (start_pulsing) concurrently instead of queueing or rejecting. -/
theorem c2_manual_concurrent_pump :
    decideWatering true .CRITICAL true 5 = none
    ∧ execWatering defaultConfig
        { initState defaultConfig with automationActive := true }
        .MOISTURE_LOW 1 false 2000 noFail
      = { initState defaultConfig with automationActive := true }
    ∧ (manualWater defaultConfig
        { initState defaultConfig with automationActive := true }
        none true false false 2000).pumpLog
      = [PumpCmd.startPulsing (5/16) (5/16) 1]
    ∧ (manualWater defaultConfig
        { initState defaultConfig with automationActive := true }
        none true false false 2000).automationActive = true := by
  with_unfolding_all decide

theorem warnTimes_logEvent (s : EngineState) (cat sev : String) (now : ℚ) :
    warnTimes (logEvent s cat sev now)
      = if cat = "SENSOR_WARNING" then now :: warnTimes s else warnTimes s := by
  by_cases h : cat = "SENSOR_WARNING" <;> simp [warnTimes, logEvent, h]

theorem stateChangeStep_warn (s : EngineState) (ns : PlantState) (now : ℚ) :
    warnTimes (stateChangeStep s ns now) = warnTimes s
    ∧ (stateChangeStep s ns now).lastSensorWarning = s.lastSensorWarning := by
  unfold stateChangeStep
  split_ifs <;> simp [warnTimes, logEvent]

theorem sensorWarnStep_pos (cfg : Config) (s : EngineState) (now : ℚ)
    (h : cfg.sensorWarningInterval ≤ now - s.lastSensorWarning) :
    warnTimes (sensorWarnStep cfg s now) = now :: warnTimes s
    ∧ (sensorWarnStep cfg s now).lastSensorWarning = now := by
  unfold sensorWarnStep
  rw [if_pos h]
  exact ⟨by simp [warnTimes, logEvent], rfl⟩

theorem sensorWarnStep_neg (cfg : Config) (s : EngineState) (now : ℚ)
    (h : ¬ cfg.sensorWarningInterval ≤ now - s.lastSensorWarning) :
    sensorWarnStep cfg s now = s := by
  unfold sensorWarnStep
  rw [if_neg h]

theorem handleSensorError_state (cfg : Config) (s : EngineState) (now : ℚ) :
    (handleSensorError cfg s now).currentState = .SENSOR_ERROR := by
  unfold handleSensorError stateChangeStep
  split_ifs with h
  · rfl
  · simp only [ne_eq, not_not] at h
    exact h.symm

theorem handleSensorError_frame (cfg : Config) (s : EngineState) (now : ℚ) :
    (handleSensorError cfg s now).moistureStore = s.moistureStore
    ∧ (handleSensorError cfg s now).lastMoisture = s.lastMoisture := by
  unfold handleSensorError stateChangeStep sensorWarnStep
  split_ifs <;> simp [logEvent]

theorem decideWatering_sensorError (a cw : Bool) (c : ℕ) :
    decideWatering a .SENSOR_ERROR cw c = none := by
  cases a <;> simp [decideWatering]

theorem executeAutomationLogic_sensorError (cfg : Config) (s : EngineState)
    (now : ℚ) (o : FailOracle) (h : s.currentState = .SENSOR_ERROR) :
    executeAutomationLogic cfg s now o = s := by
  unfold executeAutomationLogic
  rw [h, decideWatering_sensorError]

theorem execWatering_frame (cfg : Config) (s : EngineState)
    (trig : WateringTrigger) (mult : ℚ) (emg : Bool) (now : ℚ) (o : FailOracle) :
    (execWatering cfg s trig mult emg now o).moistureStore = s.moistureStore
    ∧ (execWatering cfg s trig mult emg now o).lastMoisture = s.lastMoisture := by
  obtain ⟨f1, f2, f3, f4, f5, f6⟩ := o
  unfold execWatering
  split_ifs with hg
  · exact ⟨rfl, rfl⟩
  · cases f1 <;> cases f2 <;> cases f3 <;> cases f4 <;> cases f5 <;> cases f6 <;>
      simp [execWateringTry, step, Except.bind, logEvent]

theorem executeAutomationLogic_frame (cfg : Config) (s : EngineState)
    (now : ℚ) (o : FailOracle) :
    (executeAutomationLogic cfg s now o).moistureStore = s.moistureStore
    ∧ (executeAutomationLogic cfg s now o).lastMoisture = s.lastMoisture := by
  unfold executeAutomationLogic
  cases hd : decideWatering s.automationActive s.currentState (canWater cfg s now)
      s.consecutiveLow with
  | none => exact ⟨rfl, rfl⟩
  | some tme =>
    obtain ⟨trig, mult, emg⟩ := tme
    exact execWatering_frame cfg s trig mult emg now o

theorem updateAdaptiveThresholdS_frame (s : EngineState) (now : ℚ) :
    (updateAdaptiveThresholdS s now).moistureStore = s.moistureStore
    ∧ (updateAdaptiveThresholdS s now).lastMoisture = s.lastMoisture := by
  unfold updateAdaptiveThresholdS
  split_ifs <;> simp [logEvent]

theorem classifyStep_frame (cfg : Config) (s : EngineState) (now m : ℚ) :
    (classifyStep cfg s now m).moistureStore = s.moistureStore
    ∧ (classifyStep cfg s now m).lastMoisture = s.lastMoisture := by
  unfold classifyStep stateChangeStep
  split_ifs <;> simp [logEvent]

theorem tick_none_warn (cfg : Config) (s : EngineState) (now : ℚ)
    (o : FailOracle) :
    warnTimes (tick cfg s now none o) = warnTimes (handleSensorError cfg s now)
    ∧ (tick cfg s now none o).lastSensorWarning
        = (handleSensorError cfg s now).lastSensorWarning := by
  unfold tick checkAndUpdateState
  rw [executeAutomationLogic_sensorError cfg (handleSensorError cfg s now) now o
    (handleSensorError_state cfg s now)]
  unfold persistMoisture
  cases h : (handleSensorError cfg s now).lastMoisture <;> simp [warnTimes]

theorem handleSensorError_inv (cfg : Config) (s : EngineState) (now : ℚ)
    (h1 : SensorInv s) (h2 : warnSep cfg s) :
    SensorInv (handleSensorError cfg s now)
    ∧ warnSep cfg (handleSensorError cfg s now) := by
  have hsc := stateChangeStep_warn (sensorWarnStep cfg s now) .SENSOR_ERROR now
  unfold handleSensorError
  by_cases h : cfg.sensorWarningInterval ≤ now - s.lastSensorWarning
  · obtain ⟨hw, hl⟩ := sensorWarnStep_pos cfg s now h
    constructor
    · unfold SensorInv
      right
      rw [hsc.1, hsc.2, hw, hl]
      rfl
    · unfold warnSep
      rw [hsc.1, hw, List.chain'_cons']
      refine ⟨?_, h2⟩
      intro b hb
      rcases h1 with hnil | hhd
      · rw [hnil] at hb
        simp at hb
      · rw [hhd] at hb
        simp at hb
        subst hb
        linarith
  · constructor
    · unfold SensorInv
      rw [hsc.1, hsc.2, sensorWarnStep_neg cfg s now h]
      exact h1
    · unfold warnSep
      rw [hsc.1, sensorWarnStep_neg cfg s now h]
      exact h2

theorem runAbsent_inv (cfg : Config) (ts : List ℚ) :
    ∀ (s : EngineState), SensorInv s → warnSep cfg s →
      SensorInv (runAbsent cfg s ts) ∧ warnSep cfg (runAbsent cfg s ts) := by
  induction ts with
  | nil => exact fun s h1 h2 => ⟨h1, h2⟩
  | cons t rest ih =>
    intro s h1 h2
    have hh := handleSensorError_inv cfg s t h1 h2
    have ht := tick_none_warn cfg s t noFail
    have hstep1 : SensorInv (tick cfg s t none noFail) := by
      unfold SensorInv
      rw [ht.1, ht.2]
      exact hh.1
    have hstep2 : warnSep cfg (tick cfg s t none noFail) := by
      unfold warnSep
      rw [ht.1]
      exact hh.2
    exact ih (tick cfg s t none noFail) hstep1 hstep2

theorem runAbsent_append (cfg : Config) (s : EngineState) (l1 l2 : List ℚ) :
    runAbsent cfg s (l1 ++ l2) = runAbsent cfg (runAbsent cfg s l1) l2 := by
  unfold runAbsent
  exact List.foldl_append _ _ _ _

theorem runAbsent_cons (cfg : Config) (s : EngineState) (t : ℚ) (ts : List ℚ) :
    runAbsent cfg s (t :: ts) = runAbsent cfg (tick cfg s t none noFail) ts := rfl

theorem tick_absent_idle (cfg : Config) (s : EngineState) (t : ℚ)
    (o : FailOracle) (h1 : s.currentState = .SENSOR_ERROR)
    (h2 : s.lastMoisture = none)
    (h3 : ¬ cfg.sensorWarningInterval ≤ t - s.lastSensorWarning) :
    tick cfg s t none o = s := by
  unfold tick checkAndUpdateState handleSensorError
  rw [sensorWarnStep_neg cfg s t h3]
  unfold stateChangeStep
  rw [if_neg (by rw [h1]; simp)]
  rw [executeAutomationLogic_sensorError cfg s t o h1]
  simp [persistMoisture, h2]

theorem runAbsent_idle (cfg : Config) (ts : List ℚ) :
    ∀ (s : EngineState), s.currentState = .SENSOR_ERROR →
      s.lastMoisture = none →
      (∀ t ∈ ts, ¬ cfg.sensorWarningInterval ≤ t - s.lastSensorWarning) →
      runAbsent cfg s ts = s := by
  induction ts with
  | nil => intro s _ _ _; rfl
  | cons t rest ih =>
    intro s h1 h2 hall
    have ht := tick_absent_idle cfg s t noFail h1 h2
      (hall t (List.mem_cons_self t rest))
    show runAbsent cfg (tick cfg s t none noFail) rest = s
    rw [ht]
    exact ih s h1 h2 (fun u hu => hall u (List.mem_cons_of_mem t hu))

theorem absentRun_eval :
    runAbsent defaultConfig (initState defaultConfig) absentSeconds = c8state2 := by
  have hd : absentSeconds = 1000 :: (idleA ++ 1060 :: idleB) := by
    set_option maxRecDepth 20000 in with_unfolding_all decide
  have h1 : tick defaultConfig (initState defaultConfig) 1000 none noFail
      = c8state1 := by
    set_option maxRecDepth 20000 in with_unfolding_all decide
  have hA : runAbsent defaultConfig c8state1 idleA = c8state1 := by
    apply runAbsent_idle
    · rfl
    · rfl
    · intro t ht
      unfold idleA at ht
      obtain ⟨i, hi, rfl⟩ := List.mem_map.mp ht
      have hi2 : i < 59 := List.mem_range.mp hi
      show ¬ (60 : ℚ) ≤ (1001 : ℚ) + (i : ℚ) - 1000
      have hle : (i : ℚ) ≤ 58 := by exact_mod_cast Nat.lt_succ_iff.mp hi2
      linarith
  have h2 : tick defaultConfig c8state1 1060 none noFail = c8state2 := by
    set_option maxRecDepth 20000 in with_unfolding_all decide
  have hB : runAbsent defaultConfig c8state2 idleB = c8state2 := by
    apply runAbsent_idle
    · rfl
    · rfl
    · intro t ht
      unfold idleB at ht
      obtain ⟨i, hi, rfl⟩ := List.mem_map.mp ht
      have hi2 : i < 10 := List.mem_range.mp hi
      show ¬ (60 : ℚ) ≤ (1061 : ℚ) + (i : ℚ) - 1060
      have hle : (i : ℚ) ≤ 9 := by exact_mod_cast Nat.lt_succ_iff.mp hi2
      linarith
  rw [hd, runAbsent_cons, h1, runAbsent_append, hA, runAbsent_cons, h2, hB]

/-- Counterexample for C8: a continuous 70-second sensor absence with
`sensor_warning_interval = 60`, polled every second, logs exactly two
SENSOR_WARNING events (at the onset and 60 seconds in), not one. -/
theorem c8_sensor_warning_cex :
    countCat (runAbsent defaultConfig (initState defaultConfig)
      absentSeconds).events "SENSOR_WARNING" = 2
    ∧ countCat (runAbsent defaultConfig (initState defaultConfig)
      absentSeconds).events "SENSOR_WARNING" ≠ 1 := by
  rw [absentRun_eval]
  set_option maxRecDepth 20000 in with_unfolding_all decide

/-- C8 amended: an absent reading always forces the plant state to
SensorError; across any run of consecutive sensor-failure ticks,
consecutive SENSOR_WARNING events are separated by at least
`sensor_warning_interval` seconds (the rate limit); but the continuous
70-second absence with interval 60 yields exactly two SENSOR_WARNING
events, not one. -/
theorem c8_sensor_warning_amended :
    (∀ (cfg : Config) (s : EngineState) (now : ℚ),
      (handleSensorError cfg s now).currentState = .SENSOR_ERROR)
    ∧ (∀ (cfg : Config) (s : EngineState) (ts : List ℚ),
        SensorInv s → warnSep cfg s → warnSep cfg (runAbsent cfg s ts))
    ∧ countCat (runAbsent defaultConfig (initState defaultConfig)
        absentSeconds).events "SENSOR_WARNING" = 2 := by
  refine ⟨handleSensorError_state,
    fun cfg s ts hI hS => (runAbsent_inv cfg ts s hI hS).2, ?_⟩
  rw [absentRun_eval]
  set_option maxRecDepth 20000 in with_unfolding_all decide

/-- Witness for C8 amended at a concrete input: two absent ticks from a
fresh state keep the warning separation. -/
theorem c8_sensor_warning_amended_instance :
    warnSep defaultConfig (runAbsent defaultConfig (initState defaultConfig)
      [100, 130]) :=
  c8_sensor_warning_amended.2.1 defaultConfig (initState defaultConfig) [100, 130]
    (Or.inl rfl) (by simp [warnSep, warnTimes, initState])

/-- Counterexample for C9: a present-reading tick followed by an
absent-reading tick appends two rows to the moisture store — the stale
value 40 is re-persisted on the absent tick — where the claim allows
only the first row. -/
theorem c9_persistence_cex :
    (runTicks defaultConfig (initState defaultConfig)
      [(1000, some 40), (1001, none)]).moistureStore = [(1001, 40), (1000, 40)]
    ∧ ((runTicks defaultConfig (initState defaultConfig)
      [(1000, some 40), (1001, none)]).moistureStore).length ≠ 1 := by
  set_option maxRecDepth 20000 in with_unfolding_all decide

/-- C9 amended: each tick appends exactly one row — the current reading
when present, otherwise the stale `last_moisture_reading` — and appends
nothing only on a tick with no present reading now and none on any
earlier tick. -/
theorem c9_persistence_amended (cfg : Config) (s : EngineState) (now : ℚ)
    (reading : Option ℚ) (o : FailOracle) :
    (∀ m, reading = some m →
      (tick cfg s now reading o).moistureStore = (now, m) :: s.moistureStore)
    ∧ (reading = none → ∀ v, s.lastMoisture = some v →
        (tick cfg s now reading o).moistureStore = (now, v) :: s.moistureStore)
    ∧ (reading = none → s.lastMoisture = none →
        (tick cfg s now reading o).moistureStore = s.moistureStore) := by
  refine ⟨?_, ?_, ?_⟩
  · rintro m rfl
    have h1 := updateAdaptiveThresholdS_frame { s with lastMoisture := some m } now
    have h2 := classifyStep_frame cfg
      (updateAdaptiveThresholdS { s with lastMoisture := some m } now) now m
    have h3 := executeAutomationLogic_frame cfg
      (classifyStep cfg
        (updateAdaptiveThresholdS { s with lastMoisture := some m } now) now m)
      now o
    unfold tick checkAndUpdateState
    simp [persistMoisture, h3.1, h3.2, h2.1, h2.2, h1.1, h1.2]
  · rintro rfl v hv
    have hf := handleSensorError_frame cfg s now
    unfold tick checkAndUpdateState
    rw [executeAutomationLogic_sensorError cfg (handleSensorError cfg s now) now o
      (handleSensorError_state cfg s now)]
    simp [persistMoisture, hf.1, hf.2, hv]
  · rintro rfl hv
    have hf := handleSensorError_frame cfg s now
    unfold tick checkAndUpdateState
    rw [executeAutomationLogic_sensorError cfg (handleSensorError cfg s now) now o
      (handleSensorError_state cfg s now)]
    simp [persistMoisture, hf.1, hf.2, hv]

/-- Witness for C9 amended at a concrete input. -/
theorem c9_persistence_amended_instance :
    (tick defaultConfig (initState defaultConfig) 1000 (some 40)
      noFail).moistureStore = [(1000, 40)] :=
  (c9_persistence_amended defaultConfig (initState defaultConfig) 1000 (some 40)
    noFail).1 40 rfl

/-- Counterexample for C10: with threshold 30 and expired cooldown, a
single tick at moisture 10 already records a watering event, and after
three such ticks there is still exactly the one event from the first
tick — so no EMERGENCY watering is triggered on the third tick. -/
theorem c10_emergency_cex :
    (runTicks cexConfig (initState cexConfig) oneLowTick).wateringStore ≠ []
    ∧ (runTicks cexConfig (initState cexConfig)
        threeLowTicks).wateringStore.length = 1 := by
  set_option maxRecDepth 20000 in with_unfolding_all decide

/-- C10 amended: the EMERGENCY watering fires on the first tick at
moisture 10 (Critical has no 3-reading debounce) with duration
multiplier 1.5 — logged duration (1 + 15) × 1.5 = 24 with the default
pump timings — recording a WateringEvent of type EMERGENCY; the second
and third ticks add no further watering because the cooldown is then
active. -/
theorem c10_emergency_amended :
    decideWatering false .CRITICAL true 1 = some (.EMERGENCY, 3/2, true)
    ∧ (runTicks cexConfig (initState cexConfig) oneLowTick).wateringStore
      = [⟨1000, some 10, (1 + 15) * (3/2), "EMERGENCY", some 1⟩]
    ∧ (runTicks cexConfig (initState cexConfig) threeLowTicks).wateringStore
      = (runTicks cexConfig (initState cexConfig) oneLowTick).wateringStore := by
  set_option maxRecDepth 20000 in with_unfolding_all decide

end Bonsai
